import Mathlib

/-!
Verification of the release-publish / rollback state machine of this
repository.  The deploy script ("Release Publisher") and `rollback.sh`
("Rollback Operator") are embedded as pure functions over a model of the
remote filesystem layout `<root>/<env>/{current, releases/<ts>, backup_<ts>,
rollback_backup_<ts>}`, together with an event trace recording the remote
operations in order.  Directory names are modelled as `List Char`; the
`ls -t` ordering used by the retention pruning is modelled by sorting
entries by their modification time (deploy directories are named by their
creation timestamp, so mtime order and timestamp-name order agree).
The Express health route of `src/routes/health.js` is embedded as a pure
handler, and a single `curl -f -s --max-time 10` health attempt as a
predicate on an optional HTTP response.
-/

/-- A directory entry on the remote host: its name and its modification
time (`ls -t` sorts by this, newest first). -/
structure Entry where
  name : List Char
  mtime : Nat
deriving DecidableEq

/-- What the `current` symlink can point at: a directory under `releases/`
or a top-level directory of the environment root (a `backup_*` or
`rollback_backup_*` snapshot). -/
inductive CurTarget where
  | release (n : List Char)
  | top (n : List Char)
deriving DecidableEq

/-- The remote filesystem state for one environment:  the entries of the
`releases/` directory, the top-level entries of the environment root other
than `releases` and `current` (backups and rollback snapshots), and the
`current` symlink (absent on a host that was never deployed to). -/
structure RemoteState where
  releaseDirs : List Entry
  topDirs : List Entry
  current : Option CurTarget
deriving DecidableEq

/-- Remote operations performed by a run, in order.  `slept`,
`healthAttempt` and `confirmPrompt` are not mutations of remote state;
all other events are. -/
inductive Event where
  | backupCreated (n : List Char)
  | releaseCreated (n : List Char)
  | setCurrent (t : CurTarget)
  | restart
  | slept (seconds : Nat)
  | healthAttempt (n : Nat) (ok : Bool)
  | prunedReleases
  | prunedBackups
  | snapshotCreated (n : List Char)
  | confirmPrompt
deriving DecidableEq

/-- Boolean test that one character list is an initial segment of
another (the shell glob `pat*` applied to a name). -/
def hasPref : List Char → List Char → Bool
  | [], _ => true
  | _ :: _, [] => false
  | a :: as, b :: bs => (a == b) && hasPref as bs

/-- The glob `backup_*` used by the Publisher's backup retention and by the
Rollback Operator's discovery listing and target classification. -/
def isBackupId (n : List Char) : Bool :=
  hasPref ("backup_".toList) n

/-- Does a target directory exist on the remote host (the `[ -d ... ]`
tests of both scripts)? -/
def targetExistsB (s : RemoteState) : CurTarget → Bool
  | CurTarget.release n => decide (n ∈ s.releaseDirs.map Entry.name)
  | CurTarget.top n => decide (n ∈ s.topDirs.map Entry.name)

/-- Does `current` exist and resolve to an existing directory
(`[ -d ${REMOTE_PATH}/current ]`, which follows the symlink)? -/
def currentResolvesB (s : RemoteState) : Bool :=
  match s.current with
  | none => false
  | some t => targetExistsB s t

/-- Static configuration of one environment, from the `case $ENVIRONMENT`
blocks shared by both scripts (`APP_NAME="my-app"`). -/
structure EnvConfig where
  host : List Char
  remotePath : List Char
  pm2Name : List Char
  healthUrl : List Char
deriving DecidableEq

/-- The `case $ENVIRONMENT in staging|production|*)` dispatch of both
scripts; `none` is the `exit 1` branch for an unknown environment.  The
host comes from the `STAGING_SERVER` / `PRODUCTION_SERVER` variables. -/
def envConfigFor (environment stagingServer productionServer : List Char) :
    Option EnvConfig :=
  if environment = "staging".toList then
    some { host := stagingServer,
           remotePath := "/var/www/my-app/staging".toList,
           pm2Name := "my-app-staging".toList,
           healthUrl := "https://staging.example.com/health".toList }
  else if environment = "production".toList then
    some { host := productionServer,
           remotePath := "/var/www/my-app/production".toList,
           pm2Name := "my-app-production".toList,
           healthUrl := "https://example.com/health".toList }
  else none

/-- An HTTP exchange as seen by one `curl` invocation: the response status
and the seconds elapsed until the response completed.  `none` models an
unreachable endpoint (connection refused / no route). -/
structure HttpResponse where
  status : Nat
  elapsed : Nat
deriving DecidableEq

/-- One health attempt, `curl -f -s --max-time 10 "$HEALTH_CHECK_URL"`:
exit status 0 iff the endpoint was reachable, the transfer finished within
the 10 second budget, and the HTTP status is below 400 (`-f` fails on 400
and above). -/
def curlHealthOk : Option HttpResponse → Bool
  | none => false
  | some r => decide (r.elapsed ≤ 10) && decide (r.status < 400)

/-- The success predicate exactly as the specification words it for a
single attempt: a 2xx response within the 10 second timeout.  Written from
the spec, to be compared with `curlHealthOk` (the embedding of the code). -/
def specTwoXxWithinTimeout (resp : Option HttpResponse) : Prop :=
  ∃ r, resp = some r ∧ 200 ≤ r.status ∧ r.status < 300 ∧ r.elapsed ≤ 10

/-- The shared health-poll loop of both scripts
(`MAX_ATTEMPTS=5; ATTEMPT=1; while [ $ATTEMPT -le $MAX_ATTEMPTS ] ...`):
each iteration runs one curl attempt; on success it breaks, on failure at
attempt 5 it gives up, otherwise it sleeps 10 seconds and retries.
`check n` is the outcome of the curl attempt number `n`.  Returns
(success, last attempt number executed, event trace).  The fuel argument
bounds iteration and equals the remaining loop iterations. -/
def healthPollAux (check : Nat → Bool) : Nat → Nat → Bool × Nat × List Event
  | _, 0 => (false, 0, [])
  | attempt, Nat.succ fuel =>
    if check attempt then (true, attempt, [Event.healthAttempt attempt true])
    else if attempt = 5 then (false, attempt, [Event.healthAttempt attempt false])
    else
      let r := healthPollAux check (attempt + 1) fuel
      (r.1, r.2.1, Event.healthAttempt attempt false :: Event.slept 10 :: r.2.2)

/-- The health poll as invoked by both scripts: five attempts starting at 1. -/
def healthPoll (check : Nat → Bool) : Bool × Nat × List Event :=
  healthPollAux check 1 5

/-- Is an event a health attempt? -/
def isHealthAttemptEvent : Event → Bool
  | Event.healthAttempt _ _ => true
  | Event.backupCreated _ => false
  | Event.releaseCreated _ => false
  | Event.setCurrent _ => false
  | Event.restart => false
  | Event.slept _ => false
  | Event.prunedReleases => false
  | Event.prunedBackups => false
  | Event.snapshotCreated _ => false
  | Event.confirmPrompt => false

/-- Is an event a process restart? -/
def isRestartEvent : Event → Bool
  | Event.restart => true
  | Event.backupCreated _ => false
  | Event.releaseCreated _ => false
  | Event.setCurrent _ => false
  | Event.slept _ => false
  | Event.healthAttempt _ _ => false
  | Event.prunedReleases => false
  | Event.prunedBackups => false
  | Event.snapshotCreated _ => false
  | Event.confirmPrompt => false

/-- The sleep duration of an event, when it is a sleep. -/
def sleepSecondsOf : Event → Option Nat
  | Event.slept d => some d
  | Event.backupCreated _ => none
  | Event.releaseCreated _ => none
  | Event.setCurrent _ => none
  | Event.restart => none
  | Event.healthAttempt _ _ => none
  | Event.prunedReleases => none
  | Event.prunedBackups => none
  | Event.snapshotCreated _ => none
  | Event.confirmPrompt => none

/-- Number of health attempts recorded in a trace. -/
def countHealthAttempts (l : List Event) : Nat :=
  (l.filter isHealthAttemptEvent).length

/-- Number of process restarts recorded in a trace. -/
def countRestarts (l : List Event) : Nat :=
  (l.filter isRestartEvent).length

/-- The sleep durations recorded in a trace, in order. -/
def sleepsOf (l : List Event) : List Nat :=
  l.filterMap sleepSecondsOf

/-- Events that mutate remote state (as opposed to local waits, probes and
the interactive prompt). -/
def isMutation : Event → Bool
  | Event.backupCreated _ => true
  | Event.releaseCreated _ => true
  | Event.setCurrent _ => true
  | Event.restart => true
  | Event.prunedReleases => true
  | Event.prunedBackups => true
  | Event.snapshotCreated _ => true
  | Event.slept _ => false
  | Event.healthAttempt _ _ => false
  | Event.confirmPrompt => false

/-- The event that re-points `current` at a top-level (backup) directory —
this happens only in the Publisher's auto-revert branch. -/
def isRevertEvent : Event → Bool
  | Event.setCurrent (CurTarget.top _) => true
  | Event.setCurrent (CurTarget.release _) => false
  | Event.backupCreated _ => false
  | Event.releaseCreated _ => false
  | Event.restart => false
  | Event.slept _ => false
  | Event.healthAttempt _ _ => false
  | Event.prunedReleases => false
  | Event.prunedBackups => false
  | Event.snapshotCreated _ => false
  | Event.confirmPrompt => false

/-- The part of a trace strictly after the first event satisfying `p`
(empty when no event satisfies `p`). -/
def dropThrough (p : Event → Bool) : List Event → List Event
  | [] => []
  | e :: es => if p e then es else dropThrough p es

/-- The ordering used by `ls -t`: newer (larger mtime) first.  Ties are
allowed; the scripts' directories are timestamp-named so in practice the
order is the timestamp order. -/
def newerEq (a b : Entry) : Prop := b.mtime ≤ a.mtime

instance : DecidableRel newerEq := fun a b => Nat.decLe b.mtime a.mtime

instance : IsTotal Entry newerEq :=
  ⟨fun a b => Nat.le_total b.mtime a.mtime⟩

instance : IsTrans Entry newerEq :=
  ⟨fun _ _ _ hab hbc => Nat.le_trans hbc hab⟩

/-- `ls -t`: the entries sorted newest first. -/
def lsT (l : List Entry) : List Entry := List.insertionSort newerEq l

/-- `xargs -r rm -rf` on a list of victim names: every entry whose name is
among the victims is removed. -/
def pruneNames (victims : List (List Char)) (l : List Entry) : List Entry :=
  l.filter fun e => decide (¬ e.name ∈ victims)

/-- `cd ${REMOTE_PATH}/releases; ls -t | tail -n +6`: the names of every
release directory except the five newest. -/
def releaseVictims (l : List Entry) : List (List Char) :=
  ((lsT l).drop 5).map Entry.name

/-- `cd ${REMOTE_PATH}; ls -dt backup_* | tail -n +4`: the names of every
`backup_*` directory except the three newest.  Directories not matching the
glob (in particular `rollback_backup_*` snapshots) are never listed. -/
def backupVictims (l : List Entry) : List (List Char) :=
  ((lsT (l.filter fun e => isBackupId e.name)).drop 3).map Entry.name

/-- Exit status of a remote shell snippet run over ssh: the remote shell is
not started with `-e`, so every command runs and the snippet's status is
that of its last command (`true` = status 0).  An empty snippet exits 0. -/
def remoteScriptOk (cmds : List Bool) : Bool :=
  match cmds.getLast? with
  | none => true
  | some b => b

/-- The release-cleanup ssh snippet: `cd`, the prune pipeline, then an
`echo` (which always succeeds and is the last command). -/
def cleanupReleasesRemote (cdOk pruneOk : Bool) : Bool :=
  remoteScriptOk [cdOk, pruneOk, true]

/-- The backup-cleanup ssh snippet: `cd`, the prune pipeline guarded by
`|| true`, then an `echo`. -/
def cleanupBackupsRemote (cdOk pruneOk : Bool) : Bool :=
  remoteScriptOk [cdOk, (pruneOk || true), true]

/-- Inputs of one Publisher run: CLI argument, server variables, whether
the local build directory exists, the run's timestamp (and the mtime that
directories created now receive), the health outcomes per attempt, and the
outcomes of the commands inside the two cleanup ssh snippets. -/
structure PublishInput where
  environment : List Char
  stagingServer : List Char
  productionServer : List Char
  buildDirExists : Bool
  timestamp : List Char
  mtime : Nat
  health : Nat → Bool
  cleanupRelCdOk : Bool
  cleanupRelPruneOk : Bool
  cleanupBakCdOk : Bool
  cleanupBakPruneOk : Bool

/-- Result of a Publisher run: the script's exit code, the final remote
state, and the ordered trace of remote operations. -/
structure PublishOutcome where
  exitCode : Nat
  state : RemoteState
  events : List Event
deriving DecidableEq

/-- The Publisher's config resolution (environment dispatch). -/
def publishConfig (inp : PublishInput) : Option EnvConfig :=
  envConfigFor inp.environment inp.stagingServer inp.productionServer

/-- The name `backup_${TIMESTAMP}` of the pre-deploy backup. -/
def backupNameOf (ts : List Char) : List Char := "backup_".toList ++ ts

/-- The Release Publisher (the deployment script).  In order: environment
dispatch (`exit 1` on unknown environment or empty host), local build
directory check (`exit 1` before any remote call), pre-deploy backup of the
resolved `current` (skipped when `current` does not resolve), release
directory creation and artifact sync, symlink swap to the new release,
process restart, a 10 second settle sleep, the health poll; then on poll
success the two best-effort cleanup snippets and exit 0, and on poll
exhaustion the auto-revert branch (re-point `current` at the pre-deploy
backup if that directory exists, restart once) and exit 1. -/
def publish (inp : PublishInput) (s : RemoteState) : PublishOutcome :=
  match publishConfig inp with
  | none => ⟨1, s, []⟩
  | some cfg =>
    if cfg.host.isEmpty then ⟨1, s, []⟩
    else if inp.buildDirExists = false then ⟨1, s, []⟩
    else
      let bname := backupNameOf inp.timestamp
      let s1 : RemoteState :=
        if currentResolvesB s then
          { s with topDirs := ⟨bname, inp.mtime⟩ :: s.topDirs }
        else s
      let ev1 : List Event :=
        if currentResolvesB s then [Event.backupCreated bname] else []
      let s3 : RemoteState :=
        { s1 with releaseDirs := ⟨inp.timestamp, inp.mtime⟩ :: s1.releaseDirs,
                  current := some (CurTarget.release inp.timestamp) }
      let evPre : List Event :=
        ev1 ++ [Event.releaseCreated inp.timestamp,
                Event.setCurrent (CurTarget.release inp.timestamp),
                Event.restart, Event.slept 10]
      let poll := healthPoll inp.health
      if poll.1 then
        if cleanupReleasesRemote inp.cleanupRelCdOk inp.cleanupRelPruneOk = false then
          ⟨1, s3, evPre ++ poll.2.2⟩
        else
          let s4 : RemoteState :=
            if inp.cleanupRelCdOk && inp.cleanupRelPruneOk then
              { s3 with releaseDirs :=
                  pruneNames (releaseVictims s3.releaseDirs) s3.releaseDirs }
            else s3
          if cleanupBackupsRemote inp.cleanupBakCdOk inp.cleanupBakPruneOk = false then
            ⟨1, s4, evPre ++ poll.2.2 ++ [Event.prunedReleases]⟩
          else
            let s5 : RemoteState :=
              if inp.cleanupBakCdOk && inp.cleanupBakPruneOk then
                { s4 with topDirs := pruneNames (backupVictims s4.topDirs) s4.topDirs }
              else s4
            ⟨0, s5, evPre ++ poll.2.2 ++ [Event.prunedReleases, Event.prunedBackups]⟩
      else
        if targetExistsB s3 (CurTarget.top bname) then
          ⟨1, { s3 with current := some (CurTarget.top bname) },
            evPre ++ poll.2.2 ++ [Event.setCurrent (CurTarget.top bname), Event.restart]⟩
        else
          ⟨1, s3, evPre ++ poll.2.2⟩

/-- Inputs of one Rollback Operator run: CLI arguments (an empty
`targetId` means the second positional argument was not given), server
variables, the answer typed at the confirmation prompt, the run's
timestamp for the `rollback_backup_*` snapshot, and the health outcomes. -/
structure RollbackInput where
  environment : List Char
  stagingServer : List Char
  productionServer : List Char
  targetId : List Char
  confirmAnswer : List Char
  timestamp : List Char
  mtime : Nat
  health : Nat → Bool

/-- Result of a Rollback Operator run: exit code, final remote state,
ordered trace of operations, and the two listings printed in discovery
mode (empty otherwise). -/
structure RollbackOutcome where
  exitCode : Nat
  state : RemoteState
  events : List Event
  shownReleases : List (List Char)
  shownBackups : List (List Char)

/-- The Rollback Operator's config resolution (environment dispatch). -/
def rollbackConfig (inp : RollbackInput) : Option EnvConfig :=
  envConfigFor inp.environment inp.stagingServer inp.productionServer

/-- Target classification: an id matching the glob `backup_*` names a
top-level backup directory, any other id names a directory under
`releases/`. -/
def rollbackTarget (id : List Char) : CurTarget :=
  if isBackupId id then CurTarget.top id else CurTarget.release id

/-- The literal `ROLLBACK_PATH` computed by the script from the
environment root and the target id. -/
def rollbackPathOf (remotePath id : List Char) : List Char :=
  if isBackupId id then remotePath ++ ('/' :: id)
  else remotePath ++ ("/releases/".toList ++ id)

/-- Discovery-mode release listing: `cd ${REMOTE_PATH}/releases && ls -t`. -/
def shownReleasesOf (s : RemoteState) : List (List Char) :=
  (lsT s.releaseDirs).map Entry.name

/-- Discovery-mode backup listing: `ls -dt backup_*` in the environment
root — only names matching the glob appear. -/
def shownBackupsOf (s : RemoteState) : List (List Char) :=
  (lsT (s.topDirs.filter fun e => isBackupId e.name)).map Entry.name

/-- The name `rollback_backup_${TIMESTAMP}` of the Operator's snapshot. -/
def rollbackBackupNameOf (ts : List Char) : List Char :=
  "rollback_backup_".toList ++ ts

/-- The confirmed part of a rollback run, after the safety gate was
answered `yes`: snapshot the resolved `current` into
`rollback_backup_${TIMESTAMP}` (skipped when `current` is not a resolving
symlink; the snippet still exits 0), re-point `current` at the resolved
target, restart the process, sleep 10 seconds, run the health poll; exit 0
on poll success and 1 on exhaustion — with no further reversion in either
case. -/
def rollbackConfirm (inp : RollbackInput) (s : RemoteState)
    (tgt : CurTarget) : RollbackOutcome :=
  let snapName := rollbackBackupNameOf inp.timestamp
  let s1 : RemoteState :=
    if currentResolvesB s then
      { s with topDirs := ⟨snapName, inp.mtime⟩ :: s.topDirs }
    else s
  let ev1 : List Event :=
    if currentResolvesB s then [Event.snapshotCreated snapName] else []
  let s2 : RemoteState := { s1 with current := some tgt }
  let poll := healthPoll inp.health
  ⟨if poll.1 then 0 else 1, s2,
    Event.confirmPrompt :: ev1 ++
      [Event.setCurrent tgt, Event.restart, Event.slept 10] ++ poll.2.2,
    [], []⟩

/-- The Rollback Operator (`rollback.sh`).  In order: environment dispatch
(`exit 1` on unknown environment or empty host), discovery mode when no
target id was given (print the two listings, `exit 1`, nothing mutated),
target classification and remote existence check (`set -e` aborts with the
ssh status 1 before anything is mutated), then the interactive
confirmation: any answer other than `yes` exits 0 with nothing mutated,
and the answer `yes` continues as `rollbackConfirm`. -/
def rollback (inp : RollbackInput) (s : RemoteState) : RollbackOutcome :=
  match rollbackConfig inp with
  | none => ⟨1, s, [], [], []⟩
  | some cfg =>
    if cfg.host.isEmpty then ⟨1, s, [], [], []⟩
    else if inp.targetId.isEmpty then
      ⟨1, s, [], shownReleasesOf s, shownBackupsOf s⟩
    else
      let tgt := rollbackTarget inp.targetId
      if targetExistsB s tgt = false then ⟨1, s, [], [], []⟩
      else if inp.confirmAnswer = "yes".toList then rollbackConfirm inp s tgt
      else ⟨0, s, [Event.confirmPrompt], [], []⟩

/-- The JSON payload built by the `GET /health` route of
`src/routes/health.js`. -/
structure HealthPayload where
  status : List Char
  uptime : Nat
  timestamp : List Char
  environment : List Char
  memUsedMB : Nat
  memTotalMB : Nat
  memUnit : List Char
deriving DecidableEq

/-- An HTTP reply produced by the route handler. -/
structure HealthReply where
  statusCode : Nat
  body : HealthPayload
deriving DecidableEq

/-- The process introspection values the handler reads. -/
structure ProcessInfo where
  uptime : Nat
  heapUsedBytes : Nat
  heapTotalBytes : Nat
  nodeEnv : Option (List Char)
  nowIso : List Char

/-- JavaScript `Math.round(bytes / 1024 / 1024)` for non-negative input:
round half up to the nearest megabyte. -/
def mbRound (bytes : Nat) : Nat := (bytes + 524288) / 1048576

/-- The `GET /health` handler: it unconditionally builds the payload with
`status: 'OK'` and replies `res.status(200).json(...)`; there is no
conditional and no error branch. -/
def healthRootHandler (p : ProcessInfo) : HealthReply :=
  { statusCode := 200,
    body := { status := "OK".toList,
              uptime := p.uptime,
              timestamp := p.nowIso,
              environment := p.nodeEnv.getD ("development".toList),
              memUsedMB := mbRound p.heapUsedBytes,
              memTotalMB := mbRound p.heapTotalBytes,
              memUnit := "MB".toList } }

/-- Evaluation of the poll when every attempt fails: five attempts, four
10-second sleeps between them, then failure. -/
lemma healthPoll_exhaust (check : Nat → Bool)
    (h : ∀ n, 1 ≤ n → n ≤ 5 → check n = false) :
    healthPoll check =
      (false, 5,
        [Event.healthAttempt 1 false, Event.slept 10,
         Event.healthAttempt 2 false, Event.slept 10,
         Event.healthAttempt 3 false, Event.slept 10,
         Event.healthAttempt 4 false, Event.slept 10,
         Event.healthAttempt 5 false]) := by
  have h1 := h 1 (by decide) (by decide)
  have h2 := h 2 (by decide) (by decide)
  have h3 := h 3 (by decide) (by decide)
  have h4 := h 4 (by decide) (by decide)
  have h5 := h 5 (by decide) (by decide)
  simp [healthPoll, healthPollAux, h1, h2, h3, h4, h5]

/-- Evaluation of the poll when the first four attempts fail and the fifth
succeeds: five attempts, four 10-second sleeps, then success. -/
lemma healthPoll_fail4_pass5 (check : Nat → Bool)
    (h : ∀ n, 1 ≤ n → n ≤ 4 → check n = false) (h5 : check 5 = true) :
    healthPoll check =
      (true, 5,
        [Event.healthAttempt 1 false, Event.slept 10,
         Event.healthAttempt 2 false, Event.slept 10,
         Event.healthAttempt 3 false, Event.slept 10,
         Event.healthAttempt 4 false, Event.slept 10,
         Event.healthAttempt 5 true]) := by
  have h1 := h 1 (by decide) (by decide)
  have h2 := h 2 (by decide) (by decide)
  have h3 := h 3 (by decide) (by decide)
  have h4 := h 4 (by decide) (by decide)
  simp [healthPoll, healthPollAux, h1, h2, h3, h4, h5]

/-- C3: the Health Poll shared by the Publisher and the Rollback Operator
(both scripts contain the identical loop, embedded once as `healthPoll`):
if the endpoint fails the first 4 attempts and succeeds on the 5th, the
poll reports success after exactly 5 attempts with a fixed 10-second sleep
between consecutive attempts; if the endpoint fails every attempt, the
poll makes exactly 5 attempts (again with the four fixed 10-second sleeps)
and reports failure. -/
theorem healthPoll_attempt_schedule (check : Nat → Bool)
    (hfail : ∀ n, 1 ≤ n → n ≤ 4 → check n = false) :
    (check 5 = true →
      (healthPoll check).1 = true ∧ (healthPoll check).2.1 = 5 ∧
      countHealthAttempts (healthPoll check).2.2 = 5 ∧
      sleepsOf (healthPoll check).2.2 = [10, 10, 10, 10]) ∧
    (check 5 = false →
      (healthPoll check).1 = false ∧ (healthPoll check).2.1 = 5 ∧
      countHealthAttempts (healthPoll check).2.2 = 5 ∧
      sleepsOf (healthPoll check).2.2 = [10, 10, 10, 10]) := by
  constructor
  · intro h5
    rw [healthPoll_fail4_pass5 check hfail h5]
    exact ⟨rfl, rfl, by decide, by decide⟩
  · intro h5
    have hall : ∀ n, 1 ≤ n → n ≤ 5 → check n = false := by
      intro n hn1 hn5
      rcases Nat.lt_or_ge n 5 with hlt | hge
      · exact hfail n hn1 (by omega)
      · have : n = 5 := by omega
        rw [this]; exact h5
    rw [healthPoll_exhaust check hall]
    exact ⟨rfl, rfl, by decide, by decide⟩

/-- Witness for C3: with an endpoint that fails the first four attempts
and succeeds on the fifth, and with an endpoint that always fails. -/
theorem healthPoll_attempt_schedule_witness :
    ((healthPoll (fun n => decide (5 ≤ n))).1 = true ∧
      (healthPoll (fun n => decide (5 ≤ n))).2.1 = 5 ∧
      countHealthAttempts (healthPoll (fun n => decide (5 ≤ n))).2.2 = 5 ∧
      sleepsOf (healthPoll (fun n => decide (5 ≤ n))).2.2 = [10, 10, 10, 10]) ∧
    ((healthPoll (fun _ => false)).1 = false ∧
      (healthPoll (fun _ => false)).2.1 = 5 ∧
      countHealthAttempts (healthPoll (fun _ => false)).2.2 = 5 ∧
      sleepsOf (healthPoll (fun _ => false)).2.2 = [10, 10, 10, 10]) := by
  constructor
  · exact (healthPoll_attempt_schedule (fun n => decide (5 ≤ n))
      (fun n h1 h4 => decide_eq_false (by omega))).1 (by decide)
  · exact (healthPoll_attempt_schedule (fun _ => false)
      (fun _ _ _ => rfl)).2 rfl

/-- C6 counterexample: a reachable 301 redirect answered within the
timeout makes the curl attempt succeed (`-f` only fails on status 400 and
above), yet it is not a 2xx response, so "succeeds iff 2xx-style response
within timeout" is false as stated. -/
theorem curl_attempt_twoXx_counterexample :
    curlHealthOk (some { status := 301, elapsed := 1 }) = true ∧
    ¬ specTwoXxWithinTimeout (some { status := 301, elapsed := 1 }) := by
  constructor
  · decide
  · rintro ⟨r, hr, h200, h300, helapsed⟩
    injection hr with h
    subst h
    exact absurd h300 (by decide)

/-- C6 (amended): a single health attempt succeeds if and only if the
endpoint is reachable and returns, within the 10-second timeout, a
response whose HTTP status is below 400 (curl `-f` semantics: any 2xx or
3xx response counts, not only 2xx). -/
theorem curl_attempt_success_iff (resp : Option HttpResponse) :
    curlHealthOk resp = true ↔
      ∃ r, resp = some r ∧ r.status < 400 ∧ r.elapsed ≤ 10 := by
  cases resp with
  | none => simp [curlHealthOk]
  | some r =>
    simp only [curlHealthOk, Bool.and_eq_true, decide_eq_true_eq,
      Option.some.injEq]
    constructor
    · intro h
      exact ⟨r, rfl, h.2, h.1⟩
    · rintro ⟨r', hr, h1, h2⟩
      subst hr
      exact ⟨h2, h1⟩

/-- C9: the managed application's `GET /health` route unconditionally
replies HTTP 200 with body status `OK` (the handler has no conditional and
no failure branch), hence a curl health attempt against a running server
yields `decide (t ≤ 10)`: it can only fail by exceeding the timeout — or
by unreachability (`curlHealthOk none = false`), never by an unhealthy
response. -/
theorem health_endpoint_always_ok (p : ProcessInfo) :
    (healthRootHandler p).statusCode = 200 ∧
    (healthRootHandler p).body.status = "OK".toList ∧
    (∀ t, curlHealthOk
        (some { status := (healthRootHandler p).statusCode, elapsed := t }) =
      decide (t ≤ 10)) ∧
    curlHealthOk none = false := by
  refine ⟨rfl, rfl, ?_, rfl⟩
  intro t
  simp [curlHealthOk, healthRootHandler]

/-- The Publisher aborts with exit 1, unchanged state and no remote
operation when the local build directory is missing (the check precedes
every ssh invocation), whatever the environment dispatch did. -/
lemma publish_no_build (inp : PublishInput) (s : RemoteState)
    (hbuild : inp.buildDirExists = false) :
    publish inp s = ⟨1, s, []⟩ := by
  cases hcfg : publishConfig inp with
  | none => simp [publish, hcfg]
  | some cfg =>
    by_cases hh : cfg.host.isEmpty
    · simp [publish, hcfg, hh]
    · simp [publish, hcfg, hh, hbuild]

/-- The Rollback Operator aborts with exit 1, unchanged state and no
remote mutation when the resolved target directory does not exist on the
remote host (`set -e` propagates the verification snippet's status). -/
lemma rollback_missing_target (inp : RollbackInput) (s : RemoteState)
    (cfg : EnvConfig)
    (hc : rollbackConfig inp = some cfg)
    (hhost : cfg.host.isEmpty = false)
    (hne : inp.targetId.isEmpty = false)
    (hmiss : targetExistsB s (rollbackTarget inp.targetId) = false) :
    rollback inp s = ⟨1, s, [], [], []⟩ := by
  simp [rollback, hc, hhost, hne, hmiss]

/-- C1: the `current` pointer invariant at the operation boundaries —
a publish run whose local build directory is missing exits 1 before any
remote mutation (state unchanged, empty operation trace), and a rollback
run whose resolved target directory does not exist remotely exits 1
before re-pointing `current` (state unchanged, empty operation trace);
in both cases `current` still resolves exactly as before. -/
theorem publish_rollback_abort_before_mutation
    (inp₁ : PublishInput) (s₁ : RemoteState)
    (hbuild : inp₁.buildDirExists = false)
    (inp₂ : RollbackInput) (s₂ : RemoteState) (cfg₂ : EnvConfig)
    (hc : rollbackConfig inp₂ = some cfg₂)
    (hhost : cfg₂.host.isEmpty = false)
    (hne : inp₂.targetId.isEmpty = false)
    (hmiss : targetExistsB s₂ (rollbackTarget inp₂.targetId) = false) :
    publish inp₁ s₁ = ⟨1, s₁, []⟩ ∧
    (publish inp₁ s₁).state.current = s₁.current ∧
    currentResolvesB (publish inp₁ s₁).state = currentResolvesB s₁ ∧
    rollback inp₂ s₂ = ⟨1, s₂, [], [], []⟩ ∧
    (rollback inp₂ s₂).state.current = s₂.current ∧
    currentResolvesB (rollback inp₂ s₂).state = currentResolvesB s₂ := by
  have h1 := publish_no_build inp₁ s₁ hbuild
  have h2 := rollback_missing_target inp₂ s₂ cfg₂ hc hhost hne hmiss
  refine ⟨h1, ?_, ?_, h2, ?_, ?_⟩ <;> simp [h1, h2]

/-- Inputs and states used by the concrete witnesses below. -/
def emptyState : RemoteState := ⟨[], [], none⟩

/-- A remote state with one release which `current` points at. -/
def oneRelState : RemoteState :=
  ⟨[⟨"20240101_000000".toList, 1⟩], [],
   some (CurTarget.release ("20240101_000000".toList))⟩

/-- The staging configuration with a non-empty host, as resolved by the
environment dispatch when `STAGING_SERVER=s.example.com`. -/
def stagingCfg : EnvConfig :=
  { host := "s.example.com".toList,
    remotePath := "/var/www/my-app/staging".toList,
    pm2Name := "my-app-staging".toList,
    healthUrl := "https://staging.example.com/health".toList }

/-- A publish invocation on staging with no local build directory. -/
def pubInpNoBuild : PublishInput :=
  { environment := "staging".toList,
    stagingServer := "s.example.com".toList,
    productionServer := [],
    buildDirExists := false,
    timestamp := "20240102_000000".toList,
    mtime := 2,
    health := fun _ => true,
    cleanupRelCdOk := true, cleanupRelPruneOk := true,
    cleanupBakCdOk := true, cleanupBakPruneOk := true }

/-- A rollback invocation on staging naming a release that does not exist
on the (empty) remote host. -/
def rbInpMissing : RollbackInput :=
  { environment := "staging".toList,
    stagingServer := "s.example.com".toList,
    productionServer := [],
    targetId := "20240101_000000".toList,
    confirmAnswer := "yes".toList,
    timestamp := "20240103_000000".toList,
    mtime := 3,
    health := fun _ => true }

/-- Witness for C1 at concrete inputs. -/
theorem publish_rollback_abort_before_mutation_witness :
    publish pubInpNoBuild emptyState = ⟨1, emptyState, []⟩ ∧
    rollback rbInpMissing emptyState = ⟨1, emptyState, [], [], []⟩ := by
  have h := publish_rollback_abort_before_mutation pubInpNoBuild emptyState
    (by decide) rbInpMissing emptyState stagingCfg (by decide) (by decide)
    (by decide) (by decide)
  exact ⟨h.1, h.2.2.2.1⟩

/-- C5: rollback target resolution — an id matching `backup_*` resolves to
the top-level path `<root>/<env>/<id>` and is classified as a backup, any
other id resolves to `<root>/<env>/releases/<id>` and is classified as a
release (shown both in general and on the spec's two concrete staging
examples), and when the resolved directory is absent remotely the
operation exits 1 without mutating `current` or any other remote state. -/
theorem rollback_target_resolution :
    (∀ hostS hostP cfg,
        envConfigFor ("staging".toList) hostS hostP = some cfg →
        rollbackPathOf cfg.remotePath ("backup_20240101_000000".toList) =
          "/var/www/my-app/staging/backup_20240101_000000".toList ∧
        rollbackPathOf cfg.remotePath ("20240101_000000".toList) =
          "/var/www/my-app/staging/releases/20240101_000000".toList) ∧
    (∀ id, isBackupId id = true → rollbackTarget id = CurTarget.top id) ∧
    (∀ id, isBackupId id = false → rollbackTarget id = CurTarget.release id) ∧
    (∀ (inp : RollbackInput) (s : RemoteState) (cfg : EnvConfig),
        rollbackConfig inp = some cfg →
        cfg.host.isEmpty = false →
        inp.targetId.isEmpty = false →
        targetExistsB s (rollbackTarget inp.targetId) = false →
        rollback inp s = ⟨1, s, [], [], []⟩) := by
  refine ⟨?_, ?_, ?_, rollback_missing_target⟩
  · intro hostS hostP cfg h
    simp only [envConfigFor, eq_self_iff_true, if_true, Option.some.injEq] at h
    subst h
    exact ⟨rfl, rfl⟩
  · intro id h
    simp [rollbackTarget, h]
  · intro id h
    simp [rollbackTarget, h]

/-- Witness for C5 at concrete inputs. -/
theorem rollback_target_resolution_witness :
    rollbackPathOf stagingCfg.remotePath ("backup_20240101_000000".toList) =
      "/var/www/my-app/staging/backup_20240101_000000".toList ∧
    rollbackPathOf stagingCfg.remotePath ("20240101_000000".toList) =
      "/var/www/my-app/staging/releases/20240101_000000".toList ∧
    rollbackTarget ("backup_20240101_000000".toList) =
      CurTarget.top ("backup_20240101_000000".toList) ∧
    rollbackTarget ("20240101_000000".toList) =
      CurTarget.release ("20240101_000000".toList) ∧
    rollback rbInpMissing emptyState = ⟨1, emptyState, [], [], []⟩ := by
  have h := rollback_target_resolution
  have h1 := h.1 (stagingCfg.host) [] stagingCfg (by decide)
  exact ⟨h1.1, h1.2, h.2.1 _ (by decide), h.2.2.1 _ (by decide),
    h.2.2.2 rbInpMissing emptyState stagingCfg (by decide) (by decide)
      (by decide) (by decide)⟩

/-- C7: the two cleanup ssh snippets end in an `echo`, and the remote
shell (run without `-e`) reports the status of the last command, so the
snippets exit 0 whatever the `cd` and prune pipeline commands did; hence a
publish run that reaches the cleanup phase exits 0 regardless of remote
command failures during the pruning of old releases or old backups. -/
theorem publish_cleanup_failures_swallowed
    (inp : PublishInput) (s : RemoteState) (cfg : EnvConfig)
    (hc : publishConfig inp = some cfg)
    (hhost : cfg.host.isEmpty = false)
    (hbuild : inp.buildDirExists = true)
    (hpoll : (healthPoll inp.health).1 = true) :
    (∀ a b, cleanupReleasesRemote a b = true) ∧
    (∀ a b, cleanupBackupsRemote a b = true) ∧
    (publish inp s).exitCode = 0 := by
  refine ⟨fun a b => rfl, fun a b => rfl, ?_⟩
  simp [publish, hc, hhost, hbuild, hpoll, cleanupReleasesRemote,
    cleanupBackupsRemote, remoteScriptOk]

/-- A publish invocation on staging in which every command inside both
cleanup snippets fails, and the health endpoint is healthy. -/
def pubInpCleanupFail : PublishInput :=
  { environment := "staging".toList,
    stagingServer := "s.example.com".toList,
    productionServer := [],
    buildDirExists := true,
    timestamp := "20240102_000000".toList,
    mtime := 2,
    health := fun _ => true,
    cleanupRelCdOk := false, cleanupRelPruneOk := false,
    cleanupBakCdOk := false, cleanupBakPruneOk := false }

/-- Witness for C7 at concrete inputs. -/
theorem publish_cleanup_failures_swallowed_witness :
    (publish pubInpCleanupFail oneRelState).exitCode = 0 := by
  exact (publish_cleanup_failures_swallowed pubInpCleanupFail oneRelState
    stagingCfg (by decide) (by decide) (by decide) (by decide)).2.2

/-- A rollback run that passed config dispatch and target verification is
exactly the interactive gate: the confirmed path on answer `yes`, and the
exit-0 no-op on any other answer. -/
lemma rollback_past_verify (inp : RollbackInput) (s : RemoteState)
    (cfg : EnvConfig)
    (hc : rollbackConfig inp = some cfg)
    (hhost : cfg.host.isEmpty = false)
    (hne : inp.targetId.isEmpty = false)
    (hex : targetExistsB s (rollbackTarget inp.targetId) = true) :
    rollback inp s =
      if inp.confirmAnswer = "yes".toList
      then rollbackConfirm inp s (rollbackTarget inp.targetId)
      else ⟨0, s, [Event.confirmPrompt], [], []⟩ := by
  simp [rollback, hc, hhost, hne, hex]

/-- C8: with a valid, existing rollback target no remote mutation happens
before the interactive confirmation (the operation trace contains nothing
before the prompt event), and declining the confirmation terminates with
exit code 0, unchanged remote state and no mutation events at all. -/
theorem rollback_confirmation_gate
    (inp : RollbackInput) (s : RemoteState) (cfg : EnvConfig)
    (hc : rollbackConfig inp = some cfg)
    (hhost : cfg.host.isEmpty = false)
    (hne : inp.targetId.isEmpty = false)
    (hex : targetExistsB s (rollbackTarget inp.targetId) = true) :
    ((rollback inp s).events.takeWhile
        (fun e => !(e == Event.confirmPrompt))) = [] ∧
    (inp.confirmAnswer ≠ "yes".toList →
      (rollback inp s).exitCode = 0 ∧
      (rollback inp s).state = s ∧
      ((rollback inp s).events.filter isMutation) = []) := by
  have hskel := rollback_past_verify inp s cfg hc hhost hne hex
  by_cases hconf : inp.confirmAnswer = "yes".toList
  · rw [hskel, if_pos hconf]
    constructor
    · obtain ⟨rest, hev⟩ :
          ∃ rest, (rollbackConfirm inp s (rollbackTarget inp.targetId)).events =
            Event.confirmPrompt :: rest := ⟨_, rfl⟩
      rw [hev]
      simp [List.takeWhile]
    · intro hne2
      exact absurd hconf hne2
  · rw [hskel, if_neg hconf]
    exact ⟨rfl, fun _ => ⟨rfl, rfl, rfl⟩⟩

/-- A rollback invocation on staging naming the existing release but
answering `no` at the confirmation prompt. -/
def rbInpDecline : RollbackInput :=
  { environment := "staging".toList,
    stagingServer := "s.example.com".toList,
    productionServer := [],
    targetId := "20240101_000000".toList,
    confirmAnswer := "no".toList,
    timestamp := "20240103_000000".toList,
    mtime := 3,
    health := fun _ => true }

/-- Witness for C8 at concrete inputs. -/
theorem rollback_confirmation_gate_witness :
    ((rollback rbInpDecline oneRelState).events.takeWhile
        (fun e => !(e == Event.confirmPrompt))) = [] ∧
    (rollback rbInpDecline oneRelState).exitCode = 0 ∧
    (rollback rbInpDecline oneRelState).state = oneRelState ∧
    ((rollback rbInpDecline oneRelState).events.filter isMutation) = [] := by
  have h := rollback_confirmation_gate rbInpDecline oneRelState stagingCfg
    (by decide) (by decide) (by decide) (by decide)
  have h2 := h.2 (by decide)
  exact ⟨h.1, h2.1, h2.2.1, h2.2.2⟩

/-- C2: in a publish run where a pre-deploy backup was created (`current`
resolved at step 1) and the post-deploy health poll exhausts all attempts,
the Publisher re-points `current` at that backup — not at the new release —
restarts the process exactly once after the reversion, exits with code 1,
and performs no further health attempt after the reversion. -/
theorem publish_exhausted_poll_reverts
    (inp : PublishInput) (s : RemoteState) (cfg : EnvConfig)
    (hc : publishConfig inp = some cfg)
    (hhost : cfg.host.isEmpty = false)
    (hbuild : inp.buildDirExists = true)
    (hcur : currentResolvesB s = true)
    (hfail : ∀ n, 1 ≤ n → n ≤ 5 → inp.health n = false) :
    (publish inp s).exitCode = 1 ∧
    (publish inp s).state.current =
      some (CurTarget.top (backupNameOf inp.timestamp)) ∧
    (publish inp s).state.current ≠ some (CurTarget.release inp.timestamp) ∧
    dropThrough isRevertEvent (publish inp s).events = [Event.restart] ∧
    countHealthAttempts (dropThrough isRevertEvent (publish inp s).events) = 0 ∧
    countRestarts (dropThrough isRevertEvent (publish inp s).events) = 1 := by
  have hpoll := healthPoll_exhaust inp.health hfail
  have hrun : publish inp s =
      ⟨1,
       { releaseDirs := ⟨inp.timestamp, inp.mtime⟩ :: s.releaseDirs,
         topDirs := ⟨backupNameOf inp.timestamp, inp.mtime⟩ :: s.topDirs,
         current := some (CurTarget.top (backupNameOf inp.timestamp)) },
       [Event.backupCreated (backupNameOf inp.timestamp),
        Event.releaseCreated inp.timestamp,
        Event.setCurrent (CurTarget.release inp.timestamp),
        Event.restart, Event.slept 10,
        Event.healthAttempt 1 false, Event.slept 10,
        Event.healthAttempt 2 false, Event.slept 10,
        Event.healthAttempt 3 false, Event.slept 10,
        Event.healthAttempt 4 false, Event.slept 10,
        Event.healthAttempt 5 false,
        Event.setCurrent (CurTarget.top (backupNameOf inp.timestamp)),
        Event.restart]⟩ := by
    simp [publish, hc, hhost, hbuild, hcur, hpoll, targetExistsB]
  have hev : (publish inp s).events =
      [Event.backupCreated (backupNameOf inp.timestamp),
       Event.releaseCreated inp.timestamp,
       Event.setCurrent (CurTarget.release inp.timestamp),
       Event.restart, Event.slept 10,
       Event.healthAttempt 1 false, Event.slept 10,
       Event.healthAttempt 2 false, Event.slept 10,
       Event.healthAttempt 3 false, Event.slept 10,
       Event.healthAttempt 4 false, Event.slept 10,
       Event.healthAttempt 5 false,
       Event.setCurrent (CurTarget.top (backupNameOf inp.timestamp)),
       Event.restart] := by rw [hrun]
  have hcu : (publish inp s).state.current =
      some (CurTarget.top (backupNameOf inp.timestamp)) := by rw [hrun]
  refine ⟨by rw [hrun], hcu, ?_, ?_, ?_, ?_⟩
  · rw [hcu]
    simp
  · rw [hev]
    rfl
  · rw [hev]
    rfl
  · rw [hev]
    rfl

/-- A publish invocation on staging whose health endpoint never answers. -/
def pubInpExhaust : PublishInput :=
  { environment := "staging".toList,
    stagingServer := "s.example.com".toList,
    productionServer := [],
    buildDirExists := true,
    timestamp := "20240102_000000".toList,
    mtime := 2,
    health := fun _ => false,
    cleanupRelCdOk := true, cleanupRelPruneOk := true,
    cleanupBakCdOk := true, cleanupBakPruneOk := true }

/-- Witness for C2 at concrete inputs. -/
theorem publish_exhausted_poll_reverts_witness :
    (publish pubInpExhaust oneRelState).exitCode = 1 ∧
    (publish pubInpExhaust oneRelState).state.current =
      some (CurTarget.top (backupNameOf pubInpExhaust.timestamp)) ∧
    dropThrough isRevertEvent (publish pubInpExhaust oneRelState).events =
      [Event.restart] ∧
    countHealthAttempts
      (dropThrough isRevertEvent (publish pubInpExhaust oneRelState).events) = 0 := by
  have h := publish_exhausted_poll_reverts pubInpExhaust oneRelState stagingCfg
    (by decide) (by decide) (by decide) (by decide) (fun _ _ _ => rfl)
  exact ⟨h.1, h.2.1, h.2.2.2.1, h.2.2.2.2.1⟩

/-- Membership is invariant under the `ls -t` sort. -/
lemma mem_lsT {l : List Entry} {e : Entry} : e ∈ lsT l ↔ e ∈ l := by
  simp [lsT]

/-- The `ls -t` sort is a permutation of its input. -/
lemma lsT_perm (l : List Entry) : List.Perm (lsT l) l :=
  List.perm_insertionSort newerEq l

/-- The `ls -t` output is sorted newest-first. -/
lemma lsT_sorted (l : List Entry) : (lsT l).Sorted newerEq :=
  List.sorted_insertionSort newerEq l

/-- Anything dropped by `tail -n +(k+1)` of an `ls -t` listing is at most
as new as anything kept. -/
lemma take_drop_mtime {l : List Entry} {k : Nat} {a b : Entry}
    (ha : a ∈ (lsT l).take k) (hb : b ∈ (lsT l).drop k) : b.mtime ≤ a.mtime :=
  (lsT_sorted l).rel_of_mem_take_of_mem_drop ha hb

/-- Membership after removing the victims by name. -/
lemma mem_pruneNames {v : List (List Char)} {l : List Entry} {e : Entry} :
    e ∈ pruneNames v l ↔ e ∈ l ∧ ¬ e.name ∈ v := by
  simp [pruneNames]

/-- Core retention lemma: removing, from a directory listing with distinct
names, every entry whose name appears past position `k` of the newest-first
sort of the glob-matching entries leaves exactly the glob-matching entries
among the `k` newest matches. -/
lemma mem_prune_glob_iff (p : Entry → Bool) (l : List Entry) (k : Nat)
    (hnd : (l.map Entry.name).Nodup) (e : Entry) :
    (e ∈ pruneNames (((lsT (l.filter p)).drop k).map Entry.name) l ∧ p e = true)
      ↔ e ∈ (lsT (l.filter p)).take k := by
  have hmnd : ((l.filter p).map Entry.name).Nodup :=
    List.Nodup.sublist ((List.filter_sublist l).map Entry.name) hnd
  have hsortnd : (((lsT (l.filter p)).map Entry.name)).Nodup :=
    (((lsT_perm (l.filter p)).map Entry.name).nodup_iff).2 hmnd
  have hsplit : (lsT (l.filter p)).take k ++ (lsT (l.filter p)).drop k =
      lsT (l.filter p) := List.take_append_drop k _
  constructor
  · rintro ⟨hpr, hp⟩
    rcases mem_pruneNames.1 hpr with ⟨hl, hnv⟩
    have hm : e ∈ l.filter p := List.mem_filter.2 ⟨hl, hp⟩
    have hsort : e ∈ lsT (l.filter p) := mem_lsT.2 hm
    rw [← hsplit] at hsort
    rcases List.mem_append.1 hsort with h | h
    · exact h
    · exact absurd (List.mem_map_of_mem Entry.name h) hnv
  · intro ht
    have hsort : e ∈ lsT (l.filter p) := by
      rw [← hsplit]
      exact List.mem_append_left _ ht
    have hm : e ∈ l.filter p := mem_lsT.1 hsort
    refine ⟨mem_pruneNames.2 ⟨(List.mem_filter.1 hm).1, ?_⟩,
      (List.mem_filter.1 hm).2⟩
    intro hv
    rcases List.mem_map.1 hv with ⟨d, hd, hdn⟩
    have hnd2 : ((((lsT (l.filter p)).take k).map Entry.name) ++
        (((lsT (l.filter p)).drop k).map Entry.name)).Nodup := by
      rw [← List.map_append, hsplit]
      exact hsortnd
    exact List.disjoint_of_nodup_append hnd2
      (List.mem_map_of_mem Entry.name ht)
      (hdn ▸ List.mem_map_of_mem Entry.name hd)

/-- Retention lemma for the release pruning, which sorts the whole listing
(no glob). -/
lemma mem_prune_all_iff (l : List Entry) (k : Nat)
    (hnd : (l.map Entry.name).Nodup) (e : Entry) :
    e ∈ pruneNames (((lsT l).drop k).map Entry.name) l ↔ e ∈ (lsT l).take k := by
  have h := mem_prune_glob_iff (fun _ => true) l k hnd e
  rw [List.filter_true] at h
  simpa using h

/-- The pruned release listing is a permutation of the `k` newest
entries. -/
lemma prune_perm_take (l : List Entry) (k : Nat)
    (hnd : (l.map Entry.name).Nodup) :
    List.Perm (pruneNames (((lsT l).drop k).map Entry.name) l)
      ((lsT l).take k) := by
  have hl : l.Nodup := List.Nodup.of_map Entry.name hnd
  have h1 : (pruneNames (((lsT l).drop k).map Entry.name) l).Nodup :=
    List.Nodup.sublist (List.filter_sublist l) hl
  have h2 : ((lsT l).take k).Nodup :=
    List.Nodup.sublist (List.take_sublist k _) (((lsT_perm l).nodup_iff).2 hl)
  exact (List.perm_ext_iff_of_nodup h1 h2).2 (mem_prune_all_iff l k hnd)

/-- The glob-matching entries that survive the backup pruning are a
permutation of the `k` newest matches. -/
lemma prune_glob_filter_perm (p : Entry → Bool) (l : List Entry) (k : Nat)
    (hnd : (l.map Entry.name).Nodup) :
    List.Perm
      ((pruneNames (((lsT (l.filter p)).drop k).map Entry.name) l).filter p)
      ((lsT (l.filter p)).take k) := by
  have hl : l.Nodup := List.Nodup.of_map Entry.name hnd
  have h1 : ((pruneNames (((lsT (l.filter p)).drop k).map Entry.name)
      l).filter p).Nodup :=
    List.Nodup.sublist (List.filter_sublist _)
      (List.Nodup.sublist (List.filter_sublist l) hl)
  have h2 : ((lsT (l.filter p)).take k).Nodup := by
    have hm : (l.filter p).Nodup := List.Nodup.sublist (List.filter_sublist l) hl
    exact List.Nodup.sublist (List.take_sublist k _)
      (((lsT_perm (l.filter p)).nodup_iff).2 hm)
  refine (List.perm_ext_iff_of_nodup h1 h2).2 ?_
  intro e
  rw [List.mem_filter]
  exact mem_prune_glob_iff p l k hnd e

/-- The release listing at cleanup time: the new release on top of the
previous ones. -/
def relAfterDeploy (inp : PublishInput) (s : RemoteState) : List Entry :=
  ⟨inp.timestamp, inp.mtime⟩ :: s.releaseDirs

/-- The top-level listing at cleanup time: the pre-deploy backup (when one
was created) on top of the previous top-level entries. -/
def topAfterBackup (inp : PublishInput) (s : RemoteState) : List Entry :=
  if currentResolvesB s then
    ⟨backupNameOf inp.timestamp, inp.mtime⟩ :: s.topDirs
  else s.topDirs

/-- A publish run that passes its checks, deploys and sees the health poll
succeed exits 0 with `current` on the new release and both retention
prunings applied. -/
lemma publish_success_state
    (inp : PublishInput) (s : RemoteState) (cfg : EnvConfig)
    (hc : publishConfig inp = some cfg)
    (hhost : cfg.host.isEmpty = false)
    (hbuild : inp.buildDirExists = true)
    (hpoll : (healthPoll inp.health).1 = true)
    (hr1 : inp.cleanupRelCdOk = true) (hr2 : inp.cleanupRelPruneOk = true)
    (hb1 : inp.cleanupBakCdOk = true) (hb2 : inp.cleanupBakPruneOk = true) :
    (publish inp s).exitCode = 0 ∧
    (publish inp s).state.releaseDirs =
      pruneNames (releaseVictims (relAfterDeploy inp s)) (relAfterDeploy inp s) ∧
    (publish inp s).state.topDirs =
      pruneNames (backupVictims (topAfterBackup inp s)) (topAfterBackup inp s) ∧
    (publish inp s).state.current = some (CurTarget.release inp.timestamp) := by
  by_cases hcur : currentResolvesB s <;>
    simp [publish, hc, hhost, hbuild, hpoll, hr1, hr2, hb1, hb2, hcur,
      relAfterDeploy, topAfterBackup, cleanupReleasesRemote,
      cleanupBackupsRemote, remoteScriptOk]

/-- C4: after every successful publish (health poll passed, cleanup
commands ran), the surviving release directories are exactly the 5 newest
of the listing (new release included) and the surviving `backup_*`
directories are exactly the 3 newest backups — stated as membership
equivalences with the newest-first sort, as exact counts when at least
5 releases / 3 backups existed, and with every deleted directory at most
as new as every kept one (timestamp order). -/
theorem publish_retention_keeps_newest
    (inp : PublishInput) (s : RemoteState) (cfg : EnvConfig)
    (hc : publishConfig inp = some cfg)
    (hhost : cfg.host.isEmpty = false)
    (hbuild : inp.buildDirExists = true)
    (hpoll : (healthPoll inp.health).1 = true)
    (hr1 : inp.cleanupRelCdOk = true) (hr2 : inp.cleanupRelPruneOk = true)
    (hb1 : inp.cleanupBakCdOk = true) (hb2 : inp.cleanupBakPruneOk = true)
    (hndRel : ((relAfterDeploy inp s).map Entry.name).Nodup)
    (hndTop : ((topAfterBackup inp s).map Entry.name).Nodup) :
    (∀ e, e ∈ (publish inp s).state.releaseDirs ↔
        e ∈ (lsT (relAfterDeploy inp s)).take 5) ∧
    (∀ e, (e ∈ (publish inp s).state.topDirs ∧ isBackupId e.name = true) ↔
        e ∈ (lsT ((topAfterBackup inp s).filter
          fun x => isBackupId x.name)).take 3) ∧
    (5 ≤ (relAfterDeploy inp s).length →
        ((publish inp s).state.releaseDirs).length = 5) ∧
    (3 ≤ ((topAfterBackup inp s).filter fun x => isBackupId x.name).length →
        (((publish inp s).state.topDirs).filter
          fun x => isBackupId x.name).length = 3) ∧
    (∀ a b, a ∈ (lsT (relAfterDeploy inp s)).take 5 →
        b ∈ (lsT (relAfterDeploy inp s)).drop 5 → b.mtime ≤ a.mtime) ∧
    (∀ a b,
        a ∈ (lsT ((topAfterBackup inp s).filter
          fun x => isBackupId x.name)).take 3 →
        b ∈ (lsT ((topAfterBackup inp s).filter
          fun x => isBackupId x.name)).drop 3 → b.mtime ≤ a.mtime) := by
  obtain ⟨hexit, hrel, htop, hcu⟩ :=
    publish_success_state inp s cfg hc hhost hbuild hpoll hr1 hr2 hb1 hb2
  refine ⟨?_, ?_, ?_, ?_,
    fun a b ha hb => take_drop_mtime ha hb,
    fun a b ha hb => take_drop_mtime ha hb⟩
  · intro e
    rw [hrel]
    simp only [releaseVictims]
    exact mem_prune_all_iff _ 5 hndRel e
  · intro e
    rw [htop]
    simp only [backupVictims]
    exact mem_prune_glob_iff _ _ 3 hndTop e
  · intro hlen
    rw [hrel]
    simp only [releaseVictims]
    have h1 := (prune_perm_take (relAfterDeploy inp s) 5 hndRel).length_eq
    have h2 : (lsT (relAfterDeploy inp s)).length =
        (relAfterDeploy inp s).length := (lsT_perm _).length_eq
    rw [h1, List.length_take, h2]
    omega
  · intro hlen
    rw [htop]
    simp only [backupVictims]
    have h1 := (prune_glob_filter_perm (fun x => isBackupId x.name)
      (topAfterBackup inp s) 3 hndTop).length_eq
    have h2 : (lsT ((topAfterBackup inp s).filter
        fun x => isBackupId x.name)).length =
        ((topAfterBackup inp s).filter fun x => isBackupId x.name).length :=
      (lsT_perm _).length_eq
    rw [h1, List.length_take, h2]
    omega

/-- A remote state with five releases (the newest deployed), three
backups and one rollback snapshot. -/
def retentionState : RemoteState :=
  ⟨[⟨"t5".toList, 5⟩, ⟨"t4".toList, 4⟩, ⟨"t3".toList, 3⟩,
    ⟨"t2".toList, 2⟩, ⟨"t1".toList, 1⟩],
   [⟨"backup_t3".toList, 3⟩, ⟨"backup_t2".toList, 2⟩,
    ⟨"backup_t1".toList, 1⟩, ⟨"rollback_backup_t1".toList, 1⟩],
   some (CurTarget.release ("t5".toList))⟩

/-- A publish invocation on staging with a healthy endpoint and a sixth
release timestamp. -/
def pubInpRetention : PublishInput :=
  { environment := "staging".toList,
    stagingServer := "s.example.com".toList,
    productionServer := [],
    buildDirExists := true,
    timestamp := "t6".toList,
    mtime := 6,
    health := fun _ => true,
    cleanupRelCdOk := true, cleanupRelPruneOk := true,
    cleanupBakCdOk := true, cleanupBakPruneOk := true }

/-- Witness for C4 at concrete inputs: six releases are pruned to five
and four backups to three. -/
theorem publish_retention_keeps_newest_witness :
    ((publish pubInpRetention retentionState).state.releaseDirs).length = 5 ∧
    (((publish pubInpRetention retentionState).state.topDirs).filter
      fun x => isBackupId x.name).length = 3 := by
  have h := publish_retention_keeps_newest pubInpRetention retentionState
    stagingCfg (by decide) (by decide) (by decide) (by decide) (by decide)
    (by decide) (by decide) (by decide) (by decide) (by decide)
  exact ⟨h.2.2.1 (by decide), h.2.2.2.1 (by decide)⟩

/-- A `rollback_backup_*` name never matches the `backup_*` glob. -/
lemma isBackupId_rollbackName (ts : List Char) :
    isBackupId (rollbackBackupNameOf ts) = false := rfl

/-- C10: a `rollback_backup_<ts>` snapshot of the Rollback Operator is
invisible and unaddressable — it never appears in the Operator's no-target
discovery backup listing (which globs only `backup_*`), it always survives
the Publisher's backup retention pruning (same glob), and a target id of
that shape is classified as a release and resolved under `releases/`, so
the snapshot's own directory cannot be named as a rollback target. -/
theorem rollback_snapshots_unaddressable
    (ts : List Char) (s : RemoteState)
    (inp : RollbackInput) (cfg : EnvConfig)
    (hc : rollbackConfig inp = some cfg)
    (hhost : cfg.host.isEmpty = false)
    (hdisc : inp.targetId.isEmpty = true) :
    (¬ rollbackBackupNameOf ts ∈ (rollback inp s).shownBackups) ∧
    (∀ e, e ∈ s.topDirs → e.name = rollbackBackupNameOf ts →
        e ∈ pruneNames (backupVictims s.topDirs) s.topDirs) ∧
    rollbackTarget (rollbackBackupNameOf ts) =
      CurTarget.release (rollbackBackupNameOf ts) ∧
    (∀ root, rollbackPathOf root (rollbackBackupNameOf ts) =
        root ++ ("/releases/".toList ++ rollbackBackupNameOf ts)) := by
  have hshown : (rollback inp s).shownBackups = shownBackupsOf s := by
    simp [rollback, hc, hhost, hdisc]
  refine ⟨?_, ?_, rfl, fun root => rfl⟩
  · rw [hshown]
    intro hmem
    rcases List.mem_map.1 hmem with ⟨d, hd, hdn⟩
    have hdm : d ∈ s.topDirs.filter (fun e => isBackupId e.name) :=
      mem_lsT.1 hd
    have hbid : isBackupId d.name = true := (List.mem_filter.1 hdm).2
    rw [hdn] at hbid
    simp [isBackupId_rollbackName] at hbid
  · intro e he hename
    refine mem_pruneNames.2 ⟨he, ?_⟩
    intro hv
    simp only [backupVictims] at hv
    rcases List.mem_map.1 hv with ⟨d, hd, hdn⟩
    have hdm : d ∈ s.topDirs.filter (fun x => isBackupId x.name) :=
      mem_lsT.1 (List.mem_of_mem_drop hd)
    have hbid : isBackupId d.name = true := (List.mem_filter.1 hdm).2
    rw [hdn, hename] at hbid
    simp [isBackupId_rollbackName] at hbid

/-- A rollback invocation on staging with no target id (discovery mode). -/
def rbInpDiscover : RollbackInput :=
  { environment := "staging".toList,
    stagingServer := "s.example.com".toList,
    productionServer := [],
    targetId := [],
    confirmAnswer := "yes".toList,
    timestamp := "t9".toList,
    mtime := 9,
    health := fun _ => true }

/-- Witness for C10 at concrete inputs. -/
theorem rollback_snapshots_unaddressable_witness :
    (¬ rollbackBackupNameOf ("t1".toList) ∈
        (rollback rbInpDiscover retentionState).shownBackups) ∧
    (⟨"rollback_backup_t1".toList, 1⟩ : Entry) ∈
      pruneNames (backupVictims retentionState.topDirs)
        retentionState.topDirs ∧
    rollbackTarget (rollbackBackupNameOf ("t1".toList)) =
      CurTarget.release (rollbackBackupNameOf ("t1".toList)) := by
  have h := rollback_snapshots_unaddressable ("t1".toList) retentionState
    rbInpDiscover stagingCfg (by decide) (by decide) (by decide)
  exact ⟨h.1, h.2.1 _ (by decide) (by decide), h.2.2.1⟩
